import Mathlib

/-!
Shallow embedding of `src/rate_limiter.py` and verification of its
natural-language specification.

Modelling conventions:
* Time is discrete (`Int` timestamps, "time units").  `time.time()` is modelled
  by threading a clock value; `time.sleep(d)` advances the clock by `d`
  (suspensions are exact, nothing else advances the clock).
* Python exceptions are modelled with `Except`: `requests.exceptions.RequestException`
  from the transport is the `String` payload of the transport oracle, and the
  exception outcomes of the embedded methods are `PyErr`.
* The HTTP transport (`self.session.request(method, url, **kwargs)`) is an
  external capability; it is modelled as an oracle `Nat → Except String Response`
  indexed by the attempt number, so that a stub may fail on some attempts and
  succeed on others, as the spec's scenarios require.
* A `rate_limit` argument in Python may be an `int`, a strategy instance, or
  any other value (`None` by default); `RateLimitVal` models exactly these
  three shapes.  Truthiness of such a value (`if not limiter and rate_limit:`)
  follows Python: `0` and `None` are falsy, instances and nonzero ints truthy.
-/

namespace RateLimiterPy

mutual
/-- The `BaseRateLimitedRequest` hierarchy of `src/rate_limiter.py`:
`LastRequestRateLimitedRequest` (fields `rate_limit`, `last_request_time`,
the latter initialised to `0`) and `DefaultRateLimitedRequest` (no state).
A custom caller-supplied subclass is not modelled; the claims only involve
the two built-in variants. -/
inductive Limiter where
  | lastRequestRateLimitedRequest (rate_limit : RateLimitVal) (last_request_time : Int)
  | defaultRateLimitedRequest
  deriving DecidableEq

/-- A Python value passed as (or stored in) `rate_limit`: an `int`, a
strategy instance (`BaseRateLimitedRequest`), or `None` (the default /
any non-conforming value). -/
inductive RateLimitVal where
  | num (n : Int)
  | strat (s : Limiter)
  | pynone
  deriving DecidableEq
end

/-- Python truthiness of a `rate_limit` value: `None` and `0` are falsy;
nonzero ints and object instances are truthy (neither built-in limiter class
defines `__bool__` or `__len__`). -/
def RateLimitVal.truthy : RateLimitVal → Bool
  | .num n => n != 0
  | .strat _ => true
  | .pynone => false

/-- Exceptional outcomes of the embedded methods:
`typeErr` models the `TypeError` Python raises when
`elapsed < self.rate_limit` compares a float with `None` or with an object;
`transportErr e` models a propagated `requests.exceptions.RequestException`
(the spec's `TransportError`) carrying the underlying cause `e`. -/
inductive PyErr where
  | typeErr
  | transportErr (e : String)
  deriving DecidableEq

/-- An HTTP response object as returned by the transport.  The status code is
carried so that 4xx/5xx responses are representable; the core never inspects
it. -/
structure Response where
  status : Nat
  body : String
  deriving DecidableEq

/-- `wait()` (lines 28-33 and 39-40 of `src/rate_limiter.py`).
Input: the limiter and the current clock `t` (the value of the first
`time.time()` call).  Output: the clock when `wait` returns together with the
updated limiter.

`LastRequestRateLimitedRequest.wait`: `elapsed = t - last_request_time`; if
`elapsed < rate_limit` it sleeps `rate_limit - elapsed` (so it returns at
`t + (rate_limit - elapsed)`), then sets `last_request_time` to the second
`time.time()`, i.e. to the return clock.  If `rate_limit` is `None` or an
object, the comparison `elapsed < self.rate_limit` raises `TypeError`.

`DefaultRateLimitedRequest.wait` returns immediately with no side effect. -/
def Limiter.wait : Limiter → Int → Except PyErr (Int × Limiter)
  | .defaultRateLimitedRequest, t => .ok (t, .defaultRateLimitedRequest)
  | .lastRequestRateLimitedRequest rl last, t =>
    match rl with
    | .num r =>
      let elapsed := t - last
      if elapsed < r then
        .ok (t + (r - elapsed), .lastRequestRateLimitedRequest (.num r) (t + (r - elapsed)))
      else
        .ok (t, .lastRequestRateLimitedRequest (.num r) t)
    | _ => .error .typeErr

/-- Limiters on which `wait` cannot raise: `rate_limit` is an actual number,
or the limiter is the no-op default. -/
def Limiter.waitTotal : Limiter → Bool
  | .lastRequestRateLimitedRequest (.num _) _ => true
  | .lastRequestRateLimitedRequest _ _ => false
  | .defaultRateLimitedRequest => true

/-- The value of `self.rate_limit_strategy`: a class object used as
`self.rate_limit_strategy(rate_limit)`.  The code's default is
`DefaultRateLimitedRequest`; the other built-in is
`LastRequestRateLimitedRequest`. -/
inductive RateLimitStrategyClass where
  | lastRequestClass
  | defaultClass
  deriving DecidableEq

/-- Calling the class: `LastRequestRateLimitedRequest(v)` stores `v` in
`rate_limit` and initialises `last_request_time = 0`;
`DefaultRateLimitedRequest(v)` ignores its argument. -/
def RateLimitStrategyClass.build : RateLimitStrategyClass → RateLimitVal → Limiter
  | .lastRequestClass, v => .lastRequestRateLimitedRequest v 0
  | .defaultClass, _ => .defaultRateLimitedRequest

/-- The `RateLimiter` object state (lines 44-47): the `endpoint_limits` dict
(an association list keyed by url) and the configured strategy class.
`self.session` is not part of the state; it is modelled by the transport
oracle passed to `request`. -/
structure RateLimiter where
  endpoint_limits : List (String × Limiter)
  rate_limit_strategy : RateLimitStrategyClass

/-- `_get_request_group` (lines 49-50): `self.endpoint_limits.get(url)`,
exact-match dictionary lookup. -/
def RateLimiter._get_request_group (self : RateLimiter) (url : String) : Option Limiter :=
  self.endpoint_limits.lookup url

/-- `configure_limit` (lines 52-60), translated exactly as written: it computes
the local variable `limiter` from `rate_limit` (wrapping an `int` in the
configured strategy class, taking a strategy instance as-is, and leaving
`limiter` unbound for any other value) and then returns without storing it
anywhere and without raising: `self.endpoint_limits` is never written, and
there is no `else` branch raising an error.  The `Except` result type records
that the method is a fallible Python call; its only outcome is `ok` with the
state unchanged. -/
def RateLimiter.configure_limit (self : RateLimiter) (url : String)
    (rate_limit : RateLimitVal) : Except PyErr RateLimiter :=
  let _limiter : Option Limiter :=
    match rate_limit with
    | .num n => some (self.rate_limit_strategy.build (.num n))
    | .strat s => some s
    | .pynone => none
  let _ := url
  Except.ok self

/-- Lines 63-69 of `request`: resolve the limiter to use.
`limiter = self._get_request_group(url)`; a registry hit is an object and
hence truthy, so `if not limiter and rate_limit:` fires only on a registry
miss with a truthy `rate_limit`, in which case
`limiter = self.rate_limit_strategy(rate_limit)`; the final
`if not limiter:` fallback builds `DefaultRateLimitedRequest()`. -/
def RateLimiter.resolveLimiter (self : RateLimiter) (url : String)
    (rate_limit : RateLimitVal) : Limiter :=
  match self._get_request_group url with
  | some limiter => limiter
  | none =>
    if rate_limit.truthy then
      self.rate_limit_strategy.build rate_limit
    else
      Limiter.defaultRateLimitedRequest

/-- Observable events of one `request` call: a `limiter.wait()` call, a
transport send (`self.session.request(...)`), and a backoff sleep of the
given duration (`time.sleep(2 ** retry)`). -/
inductive Event where
  | waitEv
  | sendEv
  | sleepEv (dur : Int)
  deriving DecidableEq

def Event.isSend : Event → Bool
  | .sendEv => true
  | _ => false

def Event.isWait : Event → Bool
  | .waitEv => true
  | _ => false

/-- Number of transport attempts recorded in a trace. -/
def countSends (tr : List Event) : Nat :=
  tr.countP Event.isSend

/-- Total backoff slept in a trace. -/
def sleepTime : List Event → Int
  | [] => 0
  | .sleepEv d :: tr => d + sleepTime tr
  | _ :: tr => sleepTime tr

/-- The list of backoff sleep durations of a trace, in order. -/
def sleeps : List Event → List Int
  | [] => []
  | .sleepEv d :: tr => d :: sleeps tr
  | _ :: tr => sleeps tr

/-- The retry loop of `request` (lines 71-78):
`for retry in range(retries): limiter.wait(); try: return
self.session.request(...); except RequestException as e: if retry ==
retries - 1: raise e; time.sleep(2 ** retry)`.

Arguments: the transport oracle, the current limiter, the clock, the current
value of the loop variable `retry` (called `attempt`), and the number of
iterations still to run (`remaining`); at the top of each iteration
`attempt + remaining` equals the original `retries`, so the final-iteration
test `retry == retries - 1` is `remaining = 1`.  The result is the Python
outcome (`ok (some resp)` for a returned response, `ok none` for falling off
the loop and returning `None`, `error` for a propagated exception) paired
with the trace of events. -/
def requestLoop (transport : Nat → Except String Response) :
    Limiter → Int → Nat → Nat → Except PyErr (Option Response) × List Event
  | _, _, _, 0 => (Except.ok none, [])
  | limiter, t, attempt, remaining + 1 =>
    match limiter.wait t with
    | .error e => (Except.error e, [Event.waitEv])
    | .ok (t1, lim1) =>
      match transport attempt with
      | .ok resp => (Except.ok (some resp), [Event.waitEv, Event.sendEv])
      | .error e =>
        if remaining = 0 then
          (Except.error (PyErr.transportErr e), [Event.waitEv, Event.sendEv])
        else
          let dur : Int := 2 ^ attempt
          let rest := requestLoop transport lim1 (t1 + dur) (attempt + 1) remaining
          (rest.1, Event.waitEv :: Event.sendEv :: Event.sleepEv dur :: rest.2)

/-- `request` (lines 62-78): resolve the limiter (lines 63-69), then run the
retry loop with `retry` starting at `0` and `range(retries)` iterations
(empty when `retries ≤ 0`).  `method` and the transport options are carried
by the transport oracle. -/
def RateLimiter.request (self : RateLimiter) (method url : String)
    (rate_limit : RateLimitVal) (retries : Int)
    (transport : Nat → Except String Response) (t : Int) :
    Except PyErr (Option Response) × List Event :=
  let _ := method
  let limiter := self.resolveLimiter url rate_limit
  requestLoop transport limiter t 0 retries.toNat

/-- Head event of a trace is never a send without a wait before it, checked
pairwise: `sendsOkFrom prev tr` holds when every send in `tr` is immediately
preceded by a wait (with `prev` the event just before `tr`). -/
def sendsOkFrom (prev : Event) : List Event → Bool
  | [] => true
  | e :: tr => (!e.isSend || prev.isWait) && sendsOkFrom e tr

/-- Every transport send in the trace is immediately preceded by a
`wait()` call (and in particular the trace never starts with a send). -/
def sendsPrecededByWait : List Event → Bool
  | [] => true
  | e :: tr => !e.isSend && sendsOkFrom e tr

/-- On a limiter whose `rate_limit` is numeric (or the no-op default),
`wait` always succeeds and the updated limiter has the same shape. -/
theorem Limiter.waitTotal_wait (l : Limiter) (t : Int) (h : l.waitTotal = true) :
    ∃ t1 l1, l.wait t = .ok (t1, l1) ∧ l1.waitTotal = true := by
  cases l with
  | defaultRateLimitedRequest => exact ⟨t, _, rfl, rfl⟩
  | lastRequestRateLimitedRequest rl last =>
    cases rl with
    | num r =>
      by_cases hlt : t - last < r
      · refine ⟨t + (r - (t - last)),
          Limiter.lastRequestRateLimitedRequest (.num r) (t + (r - (t - last))), ?_, rfl⟩
        simp [Limiter.wait, hlt]
      · refine ⟨t, Limiter.lastRequestRateLimitedRequest (.num r) t, ?_, rfl⟩
        simp [Limiter.wait, hlt]
    | strat s => simp [Limiter.waitTotal] at h
    | pynone => simp [Limiter.waitTotal] at h

/-- If the transport fails on every attempt, the loop entered with
`remaining = r + 1` iterations at attempt index `a` makes `r + 1` sends,
sleeps `2 ^ a, 2 ^ (a + 1), …, 2 ^ (a + r - 1)` between them, and propagates
the transport error of the final attempt `a + r`. -/
theorem requestLoop_allFail (transport : Nat → Except String Response) (f : Nat → String)
    (hfail : ∀ i, transport i = .error (f i)) :
    ∀ (r a : Nat) (limiter : Limiter) (t : Int), limiter.waitTotal = true →
      (requestLoop transport limiter t a (r + 1)).1
          = Except.error (PyErr.transportErr (f (a + r)))
      ∧ countSends (requestLoop transport limiter t a (r + 1)).2 = r + 1
      ∧ sleeps (requestLoop transport limiter t a (r + 1)).2
          = (List.range r).map (fun i => (2 : Int) ^ (a + i))
      ∧ sleepTime (requestLoop transport limiter t a (r + 1)).2
          = 2 ^ a * (2 ^ r - 1) := by
  intro r
  induction r with
  | zero =>
    intro a limiter t hl
    obtain ⟨t1, l1, hw, hl1⟩ := limiter.waitTotal_wait t hl
    simp [requestLoop, hw, hfail a, countSends, sleeps, sleepTime, Event.isSend]
  | succ r ih =>
    intro a limiter t hl
    obtain ⟨t1, l1, hw, hl1⟩ := limiter.waitTotal_wait t hl
    obtain ⟨ih1, ih2, ih3, ih4⟩ := ih (a + 1) l1 (t1 + 2 ^ a) hl1
    have hloop : requestLoop transport limiter t a (r + 1 + 1)
        = ((requestLoop transport l1 (t1 + 2 ^ a) (a + 1) (r + 1)).1,
           Event.waitEv :: Event.sendEv :: Event.sleepEv (2 ^ a)
             :: (requestLoop transport l1 (t1 + 2 ^ a) (a + 1) (r + 1)).2) := by
      simp [requestLoop, hw, hfail a]
    rw [hloop]
    refine ⟨?_, ?_, ?_, ?_⟩
    · rw [show a + (r + 1) = a + 1 + r by omega]
      exact ih1
    · simp only [countSends, List.countP_cons, Event.isSend] at ih2 ⊢
      simp at ih2 ⊢
      omega
    · simp only [sleeps]
      rw [ih3, List.range_succ_eq_map, List.map_cons, List.map_map]
      have harg : ((fun i => (2 : Int) ^ (a + i)) ∘ Nat.succ)
          = (fun i => (2 : Int) ^ (a + 1 + i)) := by
        funext i
        simp only [Function.comp_apply, Nat.succ_eq_add_one]
        congr 1
        omega
      rw [harg]
      simp
    · simp only [sleepTime]
      rw [ih4, pow_succ, pow_succ]
      ring

/-- If the transport fails on attempts `a, …, a + k - 1` and succeeds on
attempt `a + k`, and at least `k + 1` iterations remain, the loop returns
that response and makes exactly `k + 1` sends. -/
theorem requestLoop_succAt (transport : Nat → Except String Response) (resp : Response) :
    ∀ (k r a : Nat) (limiter : Limiter) (t : Int), limiter.waitTotal = true →
      k + 1 ≤ r →
      (∀ i, i < k → ∃ e, transport (a + i) = .error e) →
      transport (a + k) = .ok resp →
      (requestLoop transport limiter t a r).1 = Except.ok (some resp)
      ∧ countSends (requestLoop transport limiter t a r).2 = k + 1 := by
  intro k
  induction k with
  | zero =>
    intro r a limiter t hl hr _hfail hsucc
    obtain ⟨r1, rfl⟩ : ∃ r1, r = r1 + 1 := ⟨r - 1, by omega⟩
    obtain ⟨t1, l1, hw, hl1⟩ := limiter.waitTotal_wait t hl
    have hsucc0 : transport a = .ok resp := by simpa using hsucc
    simp [requestLoop, hw, hsucc0, countSends, Event.isSend]
  | succ k ih =>
    intro r a limiter t hl hr hfail hsucc
    obtain ⟨r1, rfl⟩ : ∃ r1, r = r1 + 1 := ⟨r - 1, by omega⟩
    obtain ⟨t1, l1, hw, hl1⟩ := limiter.waitTotal_wait t hl
    obtain ⟨e0, he0⟩ := hfail 0 (by omega)
    have he0a : transport a = .error e0 := by simpa using he0
    have hr1 : r1 ≠ 0 := by omega
    have hfail1 : ∀ i, i < k → ∃ e, transport (a + 1 + i) = .error e := by
      intro i hi
      obtain ⟨e, he⟩ := hfail (i + 1) (by omega)
      exact ⟨e, by rw [show a + 1 + i = a + (i + 1) by omega]; exact he⟩
    have hsucc1 : transport (a + 1 + k) = .ok resp := by
      rw [show a + 1 + k = a + (k + 1) by omega]
      exact hsucc
    obtain ⟨ih1, ih2⟩ := ih r1 (a + 1) l1 (t1 + 2 ^ a) hl1 (by omega) hfail1 hsucc1
    have hloop : requestLoop transport limiter t a (r1 + 1)
        = ((requestLoop transport l1 (t1 + 2 ^ a) (a + 1) r1).1,
           Event.waitEv :: Event.sendEv :: Event.sleepEv (2 ^ a)
             :: (requestLoop transport l1 (t1 + 2 ^ a) (a + 1) r1).2) := by
      simp [requestLoop, hw, he0a, hr1]
    rw [hloop]
    refine ⟨ih1, ?_⟩
    simp only [countSends, List.countP_cons, Event.isSend] at ih2 ⊢
    simp at ih2 ⊢
    omega

/-- If every send in `tr` is immediately preceded by a wait and `tr` does not
start with a send, then the pairwise check holds from any previous event. -/
theorem sendsOkFrom_of_spw (p : Event) (tr : List Event)
    (h : sendsPrecededByWait tr = true) : sendsOkFrom p tr = true := by
  cases tr with
  | nil => rfl
  | cons e tr1 =>
    simp only [sendsPrecededByWait, Bool.and_eq_true, Bool.not_eq_true'] at h
    simp [sendsOkFrom, h.1, h.2]

/-- Every trace the retry loop produces has each send immediately preceded by
a wait. -/
theorem requestLoop_sendsPrecededByWait (transport : Nat → Except String Response) :
    ∀ (r a : Nat) (limiter : Limiter) (t : Int),
      sendsPrecededByWait (requestLoop transport limiter t a r).2 = true := by
  intro r
  induction r with
  | zero => intro a limiter t; rfl
  | succ r ih =>
    intro a limiter t
    cases hw : limiter.wait t with
    | error e =>
      simp [requestLoop, hw]
      decide
    | ok p =>
      obtain ⟨t1, l1⟩ := p
      cases ht : transport a with
      | ok resp =>
        simp [requestLoop, hw, ht]
        decide
      | error e =>
        by_cases hr : r = 0
        · simp [requestLoop, hw, ht, hr]
          decide
        · have hloop : requestLoop transport limiter t a (r + 1)
              = ((requestLoop transport l1 (t1 + 2 ^ a) (a + 1) r).1,
                 Event.waitEv :: Event.sendEv :: Event.sleepEv (2 ^ a)
                   :: (requestLoop transport l1 (t1 + 2 ^ a) (a + 1) r).2) := by
            simp [requestLoop, hw, ht, hr]
          rw [hloop]
          simp only [sendsPrecededByWait, sendsOkFrom, Event.isSend, Event.isWait,
            Bool.not_false, Bool.true_or, Bool.true_and, Bool.or_true, Bool.and_self]
          exact sendsOkFrom_of_spw _ _ (ih (a + 1) l1 (t1 + 2 ^ a))

/-- C1 (evidence): `configure_limit` never stores the limiter it computes —
the client state, in particular `endpoint_limits`, is returned unchanged for
every input, so `configure_limit(url, 5)` on a fresh client followed by
`_get_request_group(url)` yields no limiter at all, while the spec (and the
method's own docstring intent) requires the configured limiter, with
effective minimum interval 5, to be stored and resolvable. -/
theorem configure_limit_does_not_store :
    (∀ (self : RateLimiter) (url : String) (rate_limit : RateLimitVal),
        self.configure_limit url rate_limit = Except.ok self)
    ∧ (RateLimiter.mk [] RateLimitStrategyClass.lastRequestClass).configure_limit
        "https://api.example.com/x" (RateLimitVal.num 5)
      = Except.ok (RateLimiter.mk [] RateLimitStrategyClass.lastRequestClass)
    ∧ (RateLimiter.mk [] RateLimitStrategyClass.lastRequestClass)._get_request_group
        "https://api.example.com/x" = none :=
  ⟨fun _ _ _ => rfl, rfl, rfl⟩

/-- C2: with `retries = N ≥ 1` and a transport raising a transport exception
(with underlying cause `f i` on attempt `i`) on every attempt, `request`
makes exactly `N` transport attempts, sleeps `2 ^ attempt` after each
non-final attempt (backoffs `1, 2, …, 2 ^ (N - 2)`, totalling
`2 ^ (N - 1) - 1 = 1 + 2 + ⋯ + 2 ^ (N - 2)`, zero when `N = 1`), and fails
with the transport error carrying the final attempt's underlying cause;
intermediate failures are not surfaced.  The resolved limiter is assumed to
be one whose `wait` cannot raise (numeric interval or the no-op default). -/
theorem request_all_transport_failures (self : RateLimiter) (method url : String)
    (rate_limit : RateLimitVal) (N : Nat) (f : Nat → String)
    (transport : Nat → Except String Response) (t : Int)
    (hgood : (self.resolveLimiter url rate_limit).waitTotal = true)
    (hN : 1 ≤ N)
    (hfail : ∀ i, transport i = Except.error (f i)) :
    (self.request method url rate_limit (N : Int) transport t).1
        = Except.error (PyErr.transportErr (f (N - 1)))
    ∧ countSends (self.request method url rate_limit (N : Int) transport t).2 = N
    ∧ sleeps (self.request method url rate_limit (N : Int) transport t).2
        = (List.range (N - 1)).map (fun i => (2 : Int) ^ i)
    ∧ sleepTime (self.request method url rate_limit (N : Int) transport t).2
        = 2 ^ (N - 1) - 1 := by
  obtain ⟨r, rfl⟩ : ∃ r, N = r + 1 := ⟨N - 1, by omega⟩
  obtain ⟨h1, h2, h3, h4⟩ := requestLoop_allFail transport f hfail r 0
    (self.resolveLimiter url rate_limit) t hgood
  have hreq : self.request method url rate_limit ((r + 1 : Nat) : Int) transport t
      = requestLoop transport (self.resolveLimiter url rate_limit) t 0 (r + 1) := by
    simp [RateLimiter.request]
  rw [hreq]
  refine ⟨by simpa using h1, by simpa using h2, by simpa using h3, ?_⟩
  have hpow : (2 : Int) ^ 0 * (2 ^ r - 1) = 2 ^ r - 1 := by ring
  rw [hpow] at h4
  simpa using h4

/-- Witness for C2 at `N = 3` with a constantly failing transport: the final
error carries the cause, three sends occur, the backoffs are `[1, 2]` with
total `3`. -/
theorem request_all_transport_failures_witness :
    ((RateLimiter.mk [] RateLimitStrategyClass.defaultClass).request "GET" "u"
        RateLimitVal.pynone ((3 : Nat) : Int) (fun _ => Except.error "boom") 0).1
      = Except.error (PyErr.transportErr "boom")
    ∧ countSends ((RateLimiter.mk [] RateLimitStrategyClass.defaultClass).request "GET" "u"
        RateLimitVal.pynone ((3 : Nat) : Int) (fun _ => Except.error "boom") 0).2 = 3
    ∧ sleeps ((RateLimiter.mk [] RateLimitStrategyClass.defaultClass).request "GET" "u"
        RateLimitVal.pynone ((3 : Nat) : Int) (fun _ => Except.error "boom") 0).2 = [1, 2]
    ∧ sleepTime ((RateLimiter.mk [] RateLimitStrategyClass.defaultClass).request "GET" "u"
        RateLimitVal.pynone ((3 : Nat) : Int) (fun _ => Except.error "boom") 0).2 = 3 := by
  have h := request_all_transport_failures
    (RateLimiter.mk [] RateLimitStrategyClass.defaultClass) "GET" "u"
    RateLimitVal.pynone 3 (fun _ => "boom") (fun _ => Except.error "boom") 0
    rfl (by decide) (fun _ => rfl)
  refine ⟨h.1, h.2.1, ?_, ?_⟩
  · have h3 := h.2.2.1
    simpa using h3
  · have h4 := h.2.2.2
    norm_num at h4
    exact h4

/-- C3 counterexample: calling `configure_limit` with a `rate_limit` that is
neither an int nor a strategy instance (here Python `None`) raises nothing:
the call returns normally.  This refutes "raises `InvalidConfigurationError`
if and only if `rate_limit` is neither form" — the code contains no such
validation and no such error class. -/
theorem configure_limit_no_error_counterexample :
    (RateLimiter.mk [] RateLimitStrategyClass.lastRequestClass).configure_limit "u"
        RateLimitVal.pynone
      = Except.ok (RateLimiter.mk [] RateLimitStrategyClass.lastRequestClass) := rfl

/-- C3 amended: `configure_limit` performs no validation and never raises at
configuration time: for every `rate_limit` value — an int, a strategy
instance, or neither — it returns normally (a neither-form value is silently
ignored rather than rejected). -/
theorem configure_limit_never_raises (self : RateLimiter) (url : String)
    (rate_limit : RateLimitVal) :
    self.configure_limit url rate_limit = Except.ok self := rfl

/-- C4 counterexample: with no registry entry for the url and a per-call
`rate_limit` of `0` — a numeric interval that *was* passed — resolution does
not build a fresh default-variant instance from it: `0` is falsy in
`if not limiter and rate_limit:`, so the code falls through to the NoOp
strategy instead of the `LastRequestRateLimitedRequest(0)` instance the claim
requires. -/
theorem resolve_zero_rate_limit_counterexample :
    (RateLimiter.mk [] RateLimitStrategyClass.lastRequestClass).resolveLimiter "u"
        (RateLimitVal.num 0) = Limiter.defaultRateLimitedRequest
    ∧ RateLimitStrategyClass.lastRequestClass.build (RateLimitVal.num 0)
        = Limiter.lastRequestRateLimitedRequest (RateLimitVal.num 0) 0
    ∧ Limiter.defaultRateLimitedRequest
        ≠ Limiter.lastRequestRateLimitedRequest (RateLimitVal.num 0) 0 :=
  ⟨rfl, rfl, by decide⟩

/-- C4 amended: every `request` call resolves exactly one strategy before any
wait occurs, with precedence: the registry-configured strategy for the exact
url when present (any per-call `rate_limit` is then ignored); otherwise a
fresh instance built from the per-call `rate_limit` via the default strategy
class when that value is truthy (a nonzero number or a strategy instance);
otherwise — including when a per-call numeric `rate_limit` of `0` was
passed — the NoOp strategy. -/
theorem resolve_precedence_amended (self : RateLimiter) (url : String)
    (rate_limit : RateLimitVal) :
    (∀ l, self._get_request_group url = some l →
        self.resolveLimiter url rate_limit = l)
    ∧ (self._get_request_group url = none → rate_limit.truthy = true →
        self.resolveLimiter url rate_limit = self.rate_limit_strategy.build rate_limit)
    ∧ (self._get_request_group url = none → rate_limit.truthy = false →
        self.resolveLimiter url rate_limit = Limiter.defaultRateLimitedRequest) := by
  refine ⟨?_, ?_, ?_⟩
  · intro l hl
    simp [RateLimiter.resolveLimiter, hl]
  · intro hn ht
    simp [RateLimiter.resolveLimiter, hn, ht]
  · intro hn ht
    simp [RateLimiter.resolveLimiter, hn, ht]

/-- Witness for C4 amended: a registry entry with interval 7 wins over a
per-call value 3; on a registry miss a truthy per-call value is wrapped
fresh; a per-call value of 0 falls through to NoOp. -/
theorem resolve_precedence_amended_witness :
    (RateLimiter.mk [("u", Limiter.lastRequestRateLimitedRequest (RateLimitVal.num 7) 0)]
        RateLimitStrategyClass.lastRequestClass).resolveLimiter "u" (RateLimitVal.num 3)
      = Limiter.lastRequestRateLimitedRequest (RateLimitVal.num 7) 0
    ∧ (RateLimiter.mk [] RateLimitStrategyClass.lastRequestClass).resolveLimiter "u"
        (RateLimitVal.num 3)
      = Limiter.lastRequestRateLimitedRequest (RateLimitVal.num 3) 0
    ∧ (RateLimiter.mk [] RateLimitStrategyClass.lastRequestClass).resolveLimiter "u"
        (RateLimitVal.num 0) = Limiter.defaultRateLimitedRequest := by
  refine ⟨(resolve_precedence_amended _ "u" _).1 _ ?_,
    (resolve_precedence_amended _ "u" _).2.1 ?_ ?_,
    (resolve_precedence_amended _ "u" _).2.2 ?_ ?_⟩ <;> rfl

/-- C5: `LastRequestRateLimitedRequest.wait` with numeric `min_interval` `m`:
it measures elapsed time from `last_request_time`; when `elapsed < m` it
suspends the caller exactly `m - elapsed` (returning at
`t1 + (m - elapsed)`), otherwise not at all; `last_request_time` is then set
to the clock measured after any suspension; and two sequential `wait` calls
on the same instance (the second starting no earlier than the first
finished) finish at least `m` apart. -/
theorem fixedInterval_wait_correct (m last t1 t2 f1 f2 : Int) (l1 l2 : Limiter)
    (hm : 0 < m)
    (h1 : (Limiter.lastRequestRateLimitedRequest (RateLimitVal.num m) last).wait t1
        = Except.ok (f1, l1))
    (hseq : f1 ≤ t2)
    (h2 : l1.wait t2 = Except.ok (f2, l2)) :
    (t1 - last < m → f1 = t1 + (m - (t1 - last)))
    ∧ (m ≤ t1 - last → f1 = t1)
    ∧ l1 = Limiter.lastRequestRateLimitedRequest (RateLimitVal.num m) f1
    ∧ f1 ≤ f2
    ∧ m ≤ f2 - f1 := by
  simp only [Limiter.wait] at h1
  by_cases hc1 : t1 - last < m
  · rw [if_pos hc1] at h1
    simp only [Except.ok.injEq, Prod.mk.injEq] at h1
    obtain ⟨hf1, hl1⟩ := h1
    have hl1f : l1 = Limiter.lastRequestRateLimitedRequest (RateLimitVal.num m) f1 := by
      rw [← hl1, hf1]
    rw [hl1f] at h2
    simp only [Limiter.wait] at h2
    by_cases hc2 : t2 - f1 < m
    · rw [if_pos hc2] at h2
      simp only [Except.ok.injEq, Prod.mk.injEq] at h2
      obtain ⟨hf2, hl2⟩ := h2
      exact ⟨fun _ => by omega, fun hge => by omega, hl1f, by omega, by omega⟩
    · rw [if_neg hc2] at h2
      simp only [Except.ok.injEq, Prod.mk.injEq] at h2
      obtain ⟨hf2, hl2⟩ := h2
      exact ⟨fun _ => by omega, fun hge => by omega, hl1f, by omega, by omega⟩
  · rw [if_neg hc1] at h1
    simp only [Except.ok.injEq, Prod.mk.injEq] at h1
    obtain ⟨hf1, hl1⟩ := h1
    have hl1f : l1 = Limiter.lastRequestRateLimitedRequest (RateLimitVal.num m) f1 := by
      rw [← hl1, hf1]
    rw [hl1f] at h2
    simp only [Limiter.wait] at h2
    by_cases hc2 : t2 - f1 < m
    · rw [if_pos hc2] at h2
      simp only [Except.ok.injEq, Prod.mk.injEq] at h2
      obtain ⟨hf2, hl2⟩ := h2
      exact ⟨fun hlt => by omega, fun _ => by omega, hl1f, by omega, by omega⟩
    · rw [if_neg hc2] at h2
      simp only [Except.ok.injEq, Prod.mk.injEq] at h2
      obtain ⟨hf2, hl2⟩ := h2
      exact ⟨fun hlt => by omega, fun _ => by omega, hl1f, by omega, by omega⟩

/-- Witness for C5: interval 5, first wait at clock 3 (sleeps 2, finishes at
5), second wait at clock 6 (sleeps 4, finishes at 10): the finishes are 5
apart. -/
theorem fixedInterval_wait_correct_witness :
    (Limiter.lastRequestRateLimitedRequest (RateLimitVal.num 5) 0).wait 3
        = Except.ok (5, Limiter.lastRequestRateLimitedRequest (RateLimitVal.num 5) 5)
    ∧ (Limiter.lastRequestRateLimitedRequest (RateLimitVal.num 5) 5).wait 6
        = Except.ok (10, Limiter.lastRequestRateLimitedRequest (RateLimitVal.num 5) 10)
    ∧ (5 : Int) ≤ 10 - 5 :=
  ⟨rfl, rfl,
    (fixedInterval_wait_correct 5 0 3 6 5 10
      (Limiter.lastRequestRateLimitedRequest (RateLimitVal.num 5) 5)
      (Limiter.lastRequestRateLimitedRequest (RateLimitVal.num 5) 10)
      (by decide) rfl (by decide) rfl).2.2.2.2⟩

/-- C6: with `retries = N`, a transport failing on attempts `1..k-1` and
succeeding on attempt `k ≤ N`, `request` returns the attempt-`k` response
and makes exactly `k` transport attempts — none after the success.  The
resolved limiter is assumed non-raising. -/
theorem request_returns_first_success (self : RateLimiter) (method url : String)
    (rate_limit : RateLimitVal) (N k : Nat) (resp : Response)
    (transport : Nat → Except String Response) (t : Int)
    (hgood : (self.resolveLimiter url rate_limit).waitTotal = true)
    (hk : 1 ≤ k) (hkN : k ≤ N)
    (hfail : ∀ i, i + 1 < k → ∃ e, transport i = Except.error e)
    (hsucc : transport (k - 1) = Except.ok resp) :
    (self.request method url rate_limit (N : Int) transport t).1 = Except.ok (some resp)
    ∧ countSends (self.request method url rate_limit (N : Int) transport t).2 = k := by
  obtain ⟨k1, rfl⟩ : ∃ k1, k = k1 + 1 := ⟨k - 1, by omega⟩
  have hfail1 : ∀ i, i < k1 → ∃ e, transport (0 + i) = Except.error e := by
    intro i hi
    simpa using hfail i (by omega)
  have hsucc1 : transport (0 + k1) = Except.ok resp := by simpa using hsucc
  have hreq : self.request method url rate_limit ((N : Nat) : Int) transport t
      = requestLoop transport (self.resolveLimiter url rate_limit) t 0 N := by
    simp [RateLimiter.request]
  rw [hreq]
  exact requestLoop_succAt transport resp k1 N 0
    (self.resolveLimiter url rate_limit) t hgood (by omega) hfail1 hsucc1

/-- Witness for C6: `N = 3`, failure on attempt 1, success on attempt 2: the
attempt-2 response is returned after exactly 2 sends. -/
theorem request_returns_first_success_witness :
    ((RateLimiter.mk [] RateLimitStrategyClass.defaultClass).request "GET" "u"
        RateLimitVal.pynone ((3 : Nat) : Int)
        (fun i => if i = 0 then Except.error "boom" else Except.ok (Response.mk 200 "ok"))
        0).1
      = Except.ok (some (Response.mk 200 "ok"))
    ∧ countSends ((RateLimiter.mk [] RateLimitStrategyClass.defaultClass).request "GET" "u"
        RateLimitVal.pynone ((3 : Nat) : Int)
        (fun i => if i = 0 then Except.error "boom" else Except.ok (Response.mk 200 "ok"))
        0).2 = 2 :=
  request_returns_first_success (RateLimiter.mk [] RateLimitStrategyClass.defaultClass)
    "GET" "u" RateLimitVal.pynone 3 2 (Response.mk 200 "ok")
    (fun i => if i = 0 then Except.error "boom" else Except.ok (Response.mk 200 "ok")) 0
    rfl (by decide) (by decide)
    (by
      intro i hi
      have h0 : i = 0 := by omega
      subst h0
      exact ⟨"boom", rfl⟩)
    rfl

/-- C7: whatever response object the transport returns on an attempt —
including one carrying a 4xx/5xx status such as 404 — `request` treats it as
a success: it is returned to the caller on that same attempt, with exactly
one transport attempt, no retry and no exception, even with retries
remaining; only transport-level exceptions enter the retry/error path. -/
theorem request_returns_any_response_status (self : RateLimiter) (method url : String)
    (rate_limit : RateLimitVal) (N : Nat) (resp : Response)
    (transport : Nat → Except String Response) (t : Int)
    (hgood : (self.resolveLimiter url rate_limit).waitTotal = true)
    (hN : 1 ≤ N)
    (hsucc : transport 0 = Except.ok resp) :
    (self.request method url rate_limit (N : Int) transport t).1 = Except.ok (some resp)
    ∧ countSends (self.request method url rate_limit (N : Int) transport t).2 = 1 := by
  have hreq : self.request method url rate_limit ((N : Nat) : Int) transport t
      = requestLoop transport (self.resolveLimiter url rate_limit) t 0 N := by
    simp [RateLimiter.request]
  rw [hreq]
  exact requestLoop_succAt transport resp 0 N 0 (self.resolveLimiter url rate_limit) t
    hgood (by omega) (fun i hi => absurd hi (by omega)) (by simpa using hsucc)

/-- Witness for C7: a 404 response object with `retries = 5` is returned
as-is after a single send — no retry, no error. -/
theorem request_returns_any_response_status_witness :
    ((RateLimiter.mk [] RateLimitStrategyClass.defaultClass).request "GET" "u"
        RateLimitVal.pynone ((5 : Nat) : Int)
        (fun _ => Except.ok (Response.mk 404 "not found")) 0).1
      = Except.ok (some (Response.mk 404 "not found"))
    ∧ countSends ((RateLimiter.mk [] RateLimitStrategyClass.defaultClass).request "GET" "u"
        RateLimitVal.pynone ((5 : Nat) : Int)
        (fun _ => Except.ok (Response.mk 404 "not found")) 0).2 = 1 :=
  request_returns_any_response_status (RateLimiter.mk [] RateLimitStrategyClass.defaultClass)
    "GET" "u" RateLimitVal.pynone 5 (Response.mk 404 "not found")
    (fun _ => Except.ok (Response.mk 404 "not found")) 0 rfl (by decide) rfl

/-- C8: in every `request` call — for any client state, per-call arguments,
retry count, transport behaviour, and limiter — every transport send in the
event trace is immediately preceded by a `wait()` call on the resolved
strategy, on the initial attempt and on every retry alike; no send ever
occurs without a wait on that same attempt. -/
theorem wait_precedes_every_send (self : RateLimiter) (method url : String)
    (rate_limit : RateLimitVal) (retries : Int)
    (transport : Nat → Except String Response) (t : Int) :
    sendsPrecededByWait
      (self.request method url rate_limit retries transport t).2 = true := by
  unfold RateLimiter.request
  exact requestLoop_sendsPrecededByWait transport retries.toNat 0
    (self.resolveLimiter url rate_limit) t

/-- C9: calling `request` with `retries ≤ 0` (below the documented minimum
of 1) runs `range(retries)` zero times: no wait, no send, no backoff sleep,
no exception — the call falls off the loop and returns Python `None` instead
of a response. -/
theorem request_nonpositive_retries_noop (self : RateLimiter) (method url : String)
    (rate_limit : RateLimitVal) (retries : Int)
    (transport : Nat → Except String Response) (t : Int)
    (h : retries ≤ 0) :
    self.request method url rate_limit retries transport t = (Except.ok none, []) := by
  unfold RateLimiter.request
  rw [Int.toNat_of_nonpos h]
  rfl

/-- Witness for C9 at `retries = -1` with a limiter configured and a transport
that would fail: nothing runs and `None` is returned. -/
theorem request_nonpositive_retries_noop_witness :
    (RateLimiter.mk [] RateLimitStrategyClass.defaultClass).request "GET" "u"
        RateLimitVal.pynone (-1) (fun _ => Except.error "boom") 0
      = (Except.ok none, []) :=
  request_nonpositive_retries_noop (RateLimiter.mk [] RateLimitStrategyClass.defaultClass)
    "GET" "u" RateLimitVal.pynone (-1) (fun _ => Except.error "boom") 0 (by decide)

/-- C10: on a registry miss where the per-call `rate_limit` is itself a
strategy instance `s`, resolution does not use `s` directly: it calls the
configured default strategy class on it (`self.rate_limit_strategy(rate_limit)`).
For the built-in `LastRequestRateLimitedRequest` default class the resolved
limiter is the wrapper holding `s` in its `rate_limit` field — a different
object from `s` — and this wrapper is what the loop calls `wait()` on,
observably so: its first `wait()` raises `TypeError` (float compared with an
object), so the whole call fails with `TypeError` even when `s` itself is a
perfectly usable strategy. -/
theorem percall_strategy_instance_wrapped (elims : List (String × Limiter))
    (url : String) (s : Limiter) (h : elims.lookup url = none) :
    (∀ cls : RateLimitStrategyClass,
        (RateLimiter.mk elims cls).resolveLimiter url (RateLimitVal.strat s)
          = cls.build (RateLimitVal.strat s))
    ∧ (RateLimiter.mk elims RateLimitStrategyClass.lastRequestClass).resolveLimiter url
        (RateLimitVal.strat s)
      = Limiter.lastRequestRateLimitedRequest (RateLimitVal.strat s) 0
    ∧ Limiter.lastRequestRateLimitedRequest (RateLimitVal.strat s) 0 ≠ s
    ∧ ∀ (method : String) (retries : Int) (transport : Nat → Except String Response)
        (t : Int), 1 ≤ retries →
        (RateLimiter.mk elims RateLimitStrategyClass.lastRequestClass).request method url
            (RateLimitVal.strat s) retries transport t
          = (Except.error PyErr.typeErr, [Event.waitEv]) := by
  have hres : ∀ cls : RateLimitStrategyClass,
      (RateLimiter.mk elims cls).resolveLimiter url (RateLimitVal.strat s)
        = cls.build (RateLimitVal.strat s) := by
    intro cls
    simp [RateLimiter.resolveLimiter, RateLimiter._get_request_group, h,
      RateLimitVal.truthy]
  refine ⟨hres, ?_, ?_, ?_⟩
  · exact hres RateLimitStrategyClass.lastRequestClass
  · intro heq
    have hs := congrArg sizeOf heq
    simp at hs
    omega
  · intro method retries transport t hret
    obtain ⟨r, hr⟩ : ∃ r, retries.toNat = r + 1 := ⟨retries.toNat - 1, by omega⟩
    show requestLoop transport
        ((RateLimiter.mk elims RateLimitStrategyClass.lastRequestClass).resolveLimiter url
          (RateLimitVal.strat s)) t 0 retries.toNat
      = (Except.error PyErr.typeErr, [Event.waitEv])
    rw [hres RateLimitStrategyClass.lastRequestClass, hr]
    simp [requestLoop, Limiter.wait, RateLimitStrategyClass.build]

/-- Witness for C10: a per-call NoOp strategy instance on a registry miss is
wrapped (not used directly), and the resulting `request` call fails with
`TypeError` after one wait even though the transport would succeed. -/
theorem percall_strategy_instance_wrapped_witness :
    (RateLimiter.mk [] RateLimitStrategyClass.lastRequestClass).resolveLimiter "u"
        (RateLimitVal.strat Limiter.defaultRateLimitedRequest)
      = Limiter.lastRequestRateLimitedRequest
          (RateLimitVal.strat Limiter.defaultRateLimitedRequest) 0
    ∧ (RateLimiter.mk [] RateLimitStrategyClass.lastRequestClass).request "GET" "u"
        (RateLimitVal.strat Limiter.defaultRateLimitedRequest) 1
        (fun _ => Except.ok (Response.mk 200 "ok")) 0
      = (Except.error PyErr.typeErr, [Event.waitEv]) :=
  ⟨(percall_strategy_instance_wrapped [] "u" Limiter.defaultRateLimitedRequest rfl).2.1,
   (percall_strategy_instance_wrapped [] "u" Limiter.defaultRateLimitedRequest rfl).2.2.2
     "GET" 1 (fun _ => Except.ok (Response.mk 200 "ok")) 0 (by decide)⟩

end RateLimiterPy
